import Mathlib

/-!
Verification of the declarative query-and-transform compiler of the
`datadog_checks_base` db utilities (`query.py` and `transform.py`).

The Python values flowing through the compiler (configuration mappings,
strings, lists, numbers, `None`) are embedded as the inductive type `Value`.
Python dictionaries are association lists with string keys in insertion
order; Python truthiness is the function `truthy`.  The `Query.compile`
method mutates its instance only after all validation has succeeded, so it
is embedded as a state transformer returning the new instance state together
with an optional raised error message.  Transformer factories are opaque
inputs of the compiler and are quantified over; the concrete factories of
`transform.py` are embedded separately.
-/

/-- Embedded Python value: `None`, booleans, integers, strings, lists and
string-keyed dictionaries (the shapes that occur in query configurations). -/
inductive Value where
  | null
  | bool (b : Bool)
  | int (n : Int)
  | str (s : String)
  | list (xs : List Value)
  | dict (xs : List (String × Value))

/-- Python truthiness of an embedded value (`bool(v)`). -/
def truthy : Value → Bool
  | .null => false
  | .bool b => b
  | .int n => decide (n ≠ 0)
  | .str s => decide (s ≠ "")
  | .list xs => !xs.isEmpty
  | .dict xs => !xs.isEmpty

/-- Python `isinstance(v, str)`. -/
def Value.isStr : Value → Bool
  | .str _ => true
  | _ => false

/-- Python `isinstance(v, list)`. -/
def Value.isList : Value → Bool
  | .list _ => true
  | _ => false

/-- Lookup in an embedded dictionary (`d.get(k)` when the key is present). -/
def dictGet (m : List (String × Value)) (k : String) : Option Value :=
  (m.find? (fun p => p.1 == k)).map (fun p => p.2)

/-- Python `d.get(k, default)`. -/
def dictGetD (m : List (String × Value)) (k : String) (d : Value) : Value :=
  (dictGet m k).getD d

/-- Python `k in d` for an embedded dictionary. -/
def hasKey (m : List (String × Value)) (k : String) : Bool :=
  (dictGet m k).isSome

/-- Python `d.pop(k, default)`, second component: the dictionary without `k`. -/
def removeKeyM (m : List (String × Value)) (k : String) : List (String × Value) :=
  m.filter (fun p => p.1 != k)

/-- Python `d[k] = v`: overwrite in place if the key exists, else append. -/
def setKey (m : List (String × Value)) (k : String) (v : Value) :
    List (String × Value) :=
  if hasKey m k then m.map (fun p => if p.1 == k then (k, v) else p)
  else m ++ [(k, v)]

/-- Keyword context (`**kwargs`) forwarded untouched by every transform. -/
abbrev Ctx := List (String × Value)

/-- A submission event produced at row time: submitted metric name and value. -/
abbrev Event := String × Value

/-- A compiled transform as stored by `Query.compile`.  Python calls column
transforms as `transform(value, sources, **kwargs)` (extra positional
arguments are absorbed by `*_`) and extra transforms as
`transform(sources, **kwargs)`; both shapes are carried by one type whose
first argument is the raw value (columns) or the source map (extras), the
second the source map where one is passed.  A raised exception is an
`Except.error`. -/
def Transform := Value → Value → Ctx → Except String (List Event)

/-- A transformer factory as consulted by `Query.compile`:
`factory(name, transformers, **modifiers)`.  The registry argument that
Python passes back to the factory is the enclosing registry itself and is
treated as captured by the factory value. -/
def Factory := String → List (String × Value) → Except String Transform

/-- Transformer registry: mapping from symbolic type name to factory. -/
abbrev Registry := List (String × Factory)

/-- Registry lookup (`transformers.get(key)`). -/
def regLookup (reg : Registry) (k : String) : Option Factory :=
  (reg.find? (fun p => p.1 == k)).map (fun p => p.2)

/-- Registry membership (`key in transformers`). -/
def hasReg (reg : Registry) (k : String) : Bool :=
  (regLookup reg k).isSome

/-- Python `transformers.pop(key)` on a copy: registry without the key. -/
def regRemove (reg : Registry) (k : String) : Registry :=
  reg.filter (fun p => p.1 != k)

/-- Provenance recorded in the Source Table: defining kind
(`"column"` or `"extra"`) and 1-based position. -/
structure SourceInfo where
  kind : String
  index : Nat
deriving DecidableEq, Repr

/-- The Source Table: declared name to provenance, in insertion order. -/
abbrev SourceTable := List (String × SourceInfo)

/-- Source Table lookup (`name in sources` / `sources[name]`). -/
def srcLookup (srcs : SourceTable) (k : String) : Option SourceInfo :=
  (srcs.find? (fun p => p.1 == k)).map (fun p => p.2)

/-- The Source Table value passed to extra transformers as the `sources`
modifier: each entry becomes a dictionary with `type` and `index` keys. -/
def sourceTableToValue (srcs : SourceTable) : Value :=
  .dict (srcs.map (fun p =>
    (p.1, .dict [("type", .str p.2.kind), ("index", .int (Int.ofNat p.2.index))])))

/-- Modelled from the spec (section 4.3, `utils.create_extra_transformer` is
not among the sources): adapt a scalar column transform and a fixed source
name into a source-map transform that extracts `sources[source]` and
forwards it together with the source map and the keyword context; a missing
key raises. -/
def create_extra_transformer (t : Transform) (source : Value) : Transform :=
  fun sources _ ctx =>
    match source with
    | .str s =>
      match sources with
      | .dict m =>
        match dictGet m s with
        | some v => t v sources ctx
        | none => .error ("KeyError: " ++ s)
      | _ => .error ("TypeError: sources is not a mapping")
    | _ => .error ("KeyError: source is not a string")

/-- Error message of `query.py` line 66: duplicate name collision citing the
earlier definer. -/
def dupMsg (nm qname kind : String) (idx : Nat) : String :=
  "the name " ++ nm ++ " of " ++ qname ++ " was already defined in " ++
    kind ++ " #" ++ toString idx

/-- A compiled column entry.  Python shapes: `(None, None)` for an ignored
column, `(name, (None, None))` for a `source` column, `(name, (type,
transform))` for a tag column and `(name, (None, transform))` otherwise. -/
abbrev ColumnEntry := Option String × Option (Option String × Option Transform)

/-- Processing of one entry of the `columns` list (`query.py` lines 51-104). -/
def colStep (qname : String) (creg : Registry) (col : Value) (i : Nat)
    (srcs : SourceTable) : Except String (ColumnEntry × SourceTable) :=
  if truthy col = false then
    .ok ((Option.none, Option.none), srcs)
  else
    match col with
    | .dict m =>
      let nameV := dictGetD m "name" .null
      if truthy nameV = false then
        .error ("field `name` for column #" ++ toString i ++ " of " ++ qname ++
          " is required")
      else
        match nameV with
        | .str cname =>
          match srcLookup srcs cname with
          | some info => .error (dupMsg cname qname info.kind info.index)
          | none =>
            let srcs2 := srcs ++ [(cname, ⟨"column", i⟩)]
            let typeV := dictGetD m "type" .null
            if truthy typeV = false then
              .error ("field `type` for column " ++ cname ++ " of " ++ qname ++
                " is required")
            else
              match typeV with
              | .str ctype =>
                if ctype = "source" then
                  .ok ((some cname, some (Option.none, Option.none)), srcs2)
                else
                  match regLookup creg ctype with
                  | none =>
                    .error ("unknown type `" ++ ctype ++ "` for column " ++
                      cname ++ " of " ++ qname)
                  | some factory =>
                    let modifiers :=
                      m.filter (fun p => p.1 != "name" && p.1 != "type")
                    match factory cname modifiers with
                    | .error e =>
                      .error ("error compiling type `" ++ ctype ++
                        "` for column " ++ cname ++ " of " ++ qname ++ ": " ++ e)
                    | .ok t =>
                      if ctype = "tag" then
                        .ok ((some cname, some (some ctype, some t)), srcs2)
                      else
                        .ok ((some cname, some (Option.none, some t)), srcs2)
              | _ =>
                .error ("field `type` for column " ++ cname ++ " of " ++ qname ++
                  " must be a string")
        | _ =>
          .error ("field `name` for column #" ++ toString i ++ " of " ++ qname ++
            " must be a string")
    | _ => .error ("column #" ++ toString i ++ " of " ++ qname ++
        " is not a mapping")

/-- The `for i, column in enumerate(columns, 1)` loop of `Query.compile`. -/
def compileColumns (qname : String) (creg : Registry) :
    List Value → Nat → SourceTable →
      Except String (List ColumnEntry × SourceTable)
  | [], _, srcs => .ok ([], srcs)
  | col :: rest, i, srcs =>
    match colStep qname creg col i srcs with
    | .error e => .error e
    | .ok (entry, srcs2) =>
      match compileColumns qname creg rest (i + 1) srcs2 with
      | .error e => .error e
      | .ok (ds, s3) => .ok (entry :: ds, s3)

/-- Error message of `query.py` line 148: missing `source` for a
submission-style extra. -/
def extraSourceRequiredMsg (ename qname : String) : String :=
  "field `source` for extra " ++ ename ++ " of " ++ qname ++ " is required"

/-- Processing of one entry of the `extras` list (`query.py` lines 114-165). -/
def extraStep (qname : String) (ereg sreg : Registry) (extra : Value) (i : Nat)
    (srcs : SourceTable) : Except String ((String × Transform) × SourceTable) :=
  match extra with
  | .dict m =>
    let nameV := dictGetD m "name" .null
    if truthy nameV = false then
      .error ("field `name` for extra #" ++ toString i ++ " of " ++ qname ++
        " is required")
    else
      match nameV with
      | .str ename =>
        match srcLookup srcs ename with
        | some info => .error (dupMsg ename qname info.kind info.index)
        | none =>
          let srcs2 := srcs ++ [(ename, ⟨"extra", i⟩)]
          let typeV := dictGetD m "type" .null
          let resolved : Except String String :=
            if truthy typeV = false then
              if hasKey m "expression" then .ok "expression"
              else
                .error ("field `type` for extra " ++ ename ++ " of " ++ qname ++
                  " is required")
            else
              match typeV with
              | .str t =>
                if hasReg ereg t || hasReg sreg t then .ok t
                else
                  .error ("unknown type `" ++ t ++ "` for extra " ++ ename ++
                    " of " ++ qname)
              | _ =>
                .error ("field `type` for extra " ++ ename ++ " of " ++ qname ++
                  " must be a string")
          match resolved with
          | .error e => .error e
          | .ok etype =>
            let factoryOpt :=
              (regLookup ereg etype).orElse (fun _ => regLookup sreg etype)
            let sourceV := dictGetD m "source" .null
            if hasReg sreg etype then
              if truthy sourceV = false then
                .error (extraSourceRequiredMsg ename qname)
              else
                let modifiers := m.filter
                  (fun p => p.1 != "name" && p.1 != "type" && p.1 != "source")
                match factoryOpt with
                | none => .error "TypeError: transformer factory is None"
                | some factory =>
                  match factory ename modifiers with
                  | .error e =>
                    .error ("error compiling type `" ++ etype ++
                      "` for extra " ++ ename ++ " of " ++ qname ++ ": " ++ e)
                  | .ok t0 =>
                    .ok ((ename, create_extra_transformer t0 sourceV), srcs2)
            else
              let modifiers0 := m.filter
                (fun p => p.1 != "name" && p.1 != "type")
              let modifiers :=
                setKey modifiers0 "sources" (sourceTableToValue srcs2)
              match factoryOpt with
              | none => .error "TypeError: transformer factory is None"
              | some factory =>
                match factory ename modifiers with
                | .error e =>
                  .error ("error compiling type `" ++ etype ++
                    "` for extra " ++ ename ++ " of " ++ qname ++ ": " ++ e)
                | .ok t0 => .ok ((ename, t0), srcs2)
      | _ =>
        .error ("field `name` for extra #" ++ toString i ++ " of " ++ qname ++
          " must be a string")
  | _ => .error ("extra #" ++ toString i ++ " of " ++ qname ++
      " is not a mapping")

/-- The `for i, extra in enumerate(extras, 1)` loop of `Query.compile`. -/
def compileExtras (qname : String) (ereg sreg : Registry) :
    List Value → Nat → SourceTable →
      Except String (List (String × Transform) × SourceTable)
  | [], _, srcs => .ok ([], srcs)
  | extra :: rest, i, srcs =>
    match extraStep qname ereg sreg extra i srcs with
    | .error e => .error e
    | .ok (entry, srcs2) =>
      match compileExtras qname ereg sreg rest (i + 1) srcs2 with
      | .error e => .error e
      | .ok (ds, s3) => .ok (entry :: ds, s3)

/-- Validation of the `name` field (`query.py` lines 25-29). -/
def checkName (m : List (String × Value)) : Except String String :=
  let v := dictGetD m "name" .null
  if truthy v = false then .error "query field `name` is required"
  else
    match v with
    | .str s => .ok s
    | _ => .error "query field `name` must be a string"

/-- Validation of the `query` field (`query.py` lines 31-35). -/
def checkQuery (m : List (String × Value)) (qname : String) :
    Except String String :=
  let v := dictGetD m "query" .null
  if truthy v = false then
    .error ("field `query` for " ++ qname ++ " is required")
  else
    match v with
    | .str s => .ok s
    | _ => .error ("field `query` for " ++ qname ++ " must be a string")

/-- Validation of the `columns` field (`query.py` lines 37-41). -/
def checkColumns (m : List (String × Value)) (qname : String) :
    Except String (List Value) :=
  let v := dictGetD m "columns" .null
  if truthy v = false then
    .error ("field `columns` for " ++ qname ++ " is required")
  else
    match v with
    | .list xs => .ok xs
    | _ => .error ("field `columns` for " ++ qname ++ " must be a list")

/-- Validation of the `tags` field (`query.py` lines 43-45): missing defaults
to the empty list, an explicit `None` is accepted unchanged, any other
non-list value is rejected. -/
def checkTags (m : List (String × Value)) (qname : String) :
    Except String Value :=
  let v := dictGetD m "tags" (.list [])
  match v with
  | .null => .ok .null
  | .list xs => .ok (.list xs)
  | _ => .error ("field `tags` for " ++ qname ++ " must be a list")

/-- Validation of the `extras` field (`query.py` lines 109-111): missing
defaults to the empty list; unlike `tags`, an explicit `None` is rejected. -/
def checkExtras (m : List (String × Value)) (qname : String) :
    Except String (List Value) :=
  let v := dictGetD m "extras" (.list [])
  match v with
  | .list xs => .ok xs
  | _ => .error ("field `extras` for " ++ qname ++ " must be a list")

/-- The compiled attributes produced by a successful `Query.compile`. -/
structure CompiledParts where
  name : String
  query : String
  columns : List ColumnEntry
  extras : List (String × Transform)
  tags : Value

/-- The pure body of `Query.compile` (`query.py` lines 25-165): everything
computed before the final attribute assignments, raising on invalid input.
`submission_transformers.pop('tag')` raises a `KeyError` when the column
registry has no `tag` entry, exactly as `dict.pop` without a default does. -/
def compileData (qd : Value) (creg ereg : Registry) :
    Except String CompiledParts :=
  match qd with
  | .dict m =>
    match checkName m with
    | .error e => .error e
    | .ok qname =>
      match checkQuery m qname with
      | .error e => .error e
      | .ok query =>
        match checkColumns m qname with
        | .error e => .error e
        | .ok cols =>
          match checkTags m qname with
          | .error e => .error e
          | .ok tags =>
            match compileColumns qname creg cols 1 [] with
            | .error e => .error e
            | .ok (colData, srcs) =>
              if hasReg creg "tag" = false then .error "KeyError: tag"
              else
                let sreg := regRemove creg "tag"
                match checkExtras m qname with
                | .error e => .error e
                | .ok extrasList =>
                  match compileExtras qname ereg sreg extrasList 1 srcs with
                  | .error e => .error e
                  | .ok (extraData, _) =>
                    .ok ⟨qname, query, colData, extraData, tags⟩
  | _ => .error "AttributeError: query_data is not a mapping"

/-- The mutable state of a `Query` instance: the retained raw configuration
(`some` until `del self.query_data`) and the five compiled attributes, all
`None` until a successful compilation. -/
structure QueryState where
  query_data : Option Value
  name : Option String
  query : Option String
  columns : Option (List ColumnEntry)
  extras : Option (List (String × Transform))
  tags : Option Value

/-- `Query.__init__`: deep-copies the configuration (`query_data or {}`) and
initializes every compiled attribute to `None`; deep-copying an immutable
embedded value is the identity. -/
def mkQuery (qd : Value) : QueryState :=
  { query_data := some (if truthy qd then qd else .dict [])
    name := Option.none
    query := Option.none
    columns := Option.none
    extras := Option.none
    tags := Option.none }

/-- The `Query.compile` method as a state transformer: returns the state of
the instance after the call together with the raised error message, if any.
The instance is mutated only by the final assignments of lines 167-172, so a
raise leaves the incoming state untouched. -/
def compileMethod (s : QueryState) (creg ereg : Registry) :
    QueryState × Option String :=
  match s.name with
  | some _ => (s, Option.none)
  | none =>
    match s.query_data with
    | none => (s, some "AttributeError: query_data")
    | some qd =>
      match compileData qd creg ereg with
      | .error e => (s, some e)
      | .ok p =>
        ({ query_data := Option.none
           name := some p.name
           query := some p.query
           columns := some p.columns
           extras := some p.extras
           tags := some p.tags }, Option.none)

/-- A transform built by the base factories of `transform.py`, called as
`transform(value, **kwargs)` (any further positional arguments are absorbed
by `*_` and unused). -/
def SubTransform := Value → Ctx → Except String (List Event)

/-- A factory of `transform.py` with its registry argument captured:
`factory(name, transformers, **modifiers)`. -/
def SubFactory := String → List (String × Value) → Except String SubTransform

/-- Registry of base transformer factories. -/
abbrev SubRegistry := List (String × SubFactory)

/-- Registry lookup for base factories. -/
def subRegLookup (reg : SubRegistry) (k : String) : Option SubFactory :=
  (reg.find? (fun p => p.1 == k)).map (fun p => p.2)

/-- Modelled from the spec (section 4.2, the `constants` module is not among
the sources): the fixed time-unit table mapping recognized unit names to
the integer number of parts per second. -/
def TIME_UNITS : List (String × Int) :=
  [("microsecond", 1000000), ("millisecond", 1000),
   ("nanosecond", 1000000000), ("second", 1)]

/-- Lookup in the time-unit table. -/
def lookupUnit (m : List (String × Int)) (k : String) : Option Int :=
  (m.find? (fun p => p.1 == k)).map (fun p => p.2)

/-- Python `str.lower()`, character by character. -/
def strToLower (s : String) : String :=
  String.mk (s.toList.map Char.toLower)

/-- Stable ascending insertion for strings (`sorted`). -/
def insertAsc (x : String) : List String → List String
  | [] => [x]
  | y :: ys => if y ≤ x then y :: insertAsc x ys else x :: y :: ys

/-- Python `sorted` on strings: stable, ascending. -/
def sortStringsAsc (xs : List String) : List String :=
  xs.foldl (fun acc x => insertAsc x acc) []

/-- Modelled from the spec (section 4.2, `common.py` is not among the
sources): converts an absolute time value to a percentage of elapsed time at
the given scale.  Only its interface matters to the compile-time claims. -/
def total_time_to_temporal_percent (value : Value) (scale : Int) : Value :=
  match value with
  | .int n => .int (n * 100 / scale)
  | v => v

/-- Construction of the underlying `rate` transform and the wrapping closure
of `get_temporal_percent` (`transform.py` lines 66-71). -/
def temporalPercentBuild (transformers : SubRegistry) (column_name : String)
    (mods : List (String × Value)) (scale : Int) : Except String SubTransform :=
  match subRegLookup transformers "rate" with
  | none => .error "KeyError: rate"
  | some f =>
    match f column_name mods with
    | .error e => .error e
    | .ok rate =>
      .ok (fun value ctx => rate (total_time_to_temporal_percent value scale) ctx)

/-- The `temporal_percent` factory (`transform.py` lines 50-71).  A Python
`bool` is an instance of `int` (`True == 1`, `False == 0`), so a boolean
scale passes the `isinstance(scale, int)` check. -/
def get_temporal_percent (transformers : SubRegistry) (column_name : String)
    (modifiers : List (String × Value)) : Except String SubTransform :=
  let scaleV := dictGetD modifiers "scale" .null
  let mods := removeKeyM modifiers "scale"
  match scaleV with
  | .null => .error "the `scale` parameter is required"
  | .str s =>
    match lookupUnit TIME_UNITS (strToLower s) with
    | none =>
      .error ("the `scale` parameter must be one of: " ++
        String.intercalate " | "
          (sortStringsAsc (TIME_UNITS.map (fun p => p.1))))
    | some n => temporalPercentBuild transformers column_name mods n
  | .int n => temporalPercentBuild transformers column_name mods n
  | .bool b => temporalPercentBuild transformers column_name mods (if b then 1 else 0)
  | _ =>
    .error
      "the `scale` parameter must be an integer representing parts of a second e.g. 1000 for millisecond"

/-- The closure returned by `get_monotonic_gauge` (`transform.py` lines
43-45): call the gauge, then the monotonic count, on the same value and
context; a raise in the gauge prevents the count from running. -/
def monotonicGaugeCompose (gauge mc : SubTransform) : SubTransform :=
  fun value ctx =>
    match gauge value ctx with
    | .error e => .error e
    | .ok e1 =>
      match mc value ctx with
      | .error e => .error e
      | .ok e2 => .ok (e1 ++ e2)

/-- The `monotonic_gauge` factory (`transform.py` lines 39-47). -/
def get_monotonic_gauge (transformers : SubRegistry) (column_name : String)
    (modifiers : List (String × Value)) : Except String SubTransform :=
  match subRegLookup transformers "gauge" with
  | none => .error "KeyError: gauge"
  | some gf =>
    match subRegLookup transformers "monotonic_count" with
    | none => .error "KeyError: monotonic_count"
    | some mf =>
      match gf (column_name ++ ".total") modifiers with
      | .error e => .error e
      | .ok gauge =>
        match mf (column_name ++ ".count") modifiers with
        | .error e => .error e
        | .ok mc => .ok (monotonicGaugeCompose gauge mc)

/-- Python `==` between a raw row value and a string key of the `items`
dictionary: only an equal string matches. -/
def valueEqKey (v : Value) (k : String) : Bool :=
  match v with
  | .str s => s == k
  | _ => false

/-- Lookup of the raw value among the compiled `items`
(`value in compiled_items` and `compiled_items[value]`). -/
def itemLookup (ci : List (String × (String × SubTransform))) (v : Value) :
    Option (String × SubTransform) :=
  (ci.find? (fun p => valueEqKey v p.1)).map (fun p => p.2)

/-- Python `dict.update`: overwrite existing keys, append new ones. -/
def dictUpdate (base upd : List (String × Value)) : List (String × Value) :=
  upd.foldl (fun acc p => setKey acc p.1 p.2) base

/-- The per-item loop of `_compile_match_items` (`transform.py` lines
188-217). -/
def compileMatchItemsGo (transformers : SubRegistry) (globalSource : Value)
    (mods : List (String × Value)) :
    List (String × Value) →
      Except String (List (String × (String × SubTransform)))
  | [] => .ok []
  | (item, data) :: rest =>
    match data with
    | .dict d =>
      let nameV := dictGetD d "name" .null
      if truthy nameV = false then
        .error ("the `name` parameter for item `" ++ item ++ "` is required")
      else
        match nameV with
        | .str tname =>
          let typeV := dictGetD d "type" .null
          if truthy typeV = false then
            .error ("the `type` parameter for item `" ++ item ++ "` is required")
          else
            match typeV with
            | .str ttype =>
              match subRegLookup transformers ttype with
              | none =>
                .error ("unknown type `" ++ ttype ++ "` for item `" ++ item ++ "`")
              | some f =>
                let srcV :=
                  match dictGet d "source" with
                  | some v => v
                  | none => globalSource
                if truthy srcV = false then
                  .error ("the `source` parameter for item `" ++ item ++
                    "` is required")
                else
                  match srcV with
                  | .str tsource =>
                    let dataRest := d.filter (fun p =>
                      p.1 != "name" && p.1 != "type" && p.1 != "source")
                    let tmods := dictUpdate mods dataRest
                    match f tname tmods with
                    | .error e => .error e
                    | .ok t =>
                      match compileMatchItemsGo transformers globalSource mods rest with
                      | .error e => .error e
                      | .ok cis => .ok ((item, (tsource, t)) :: cis)
                  | _ =>
                    .error ("the `source` parameter for item `" ++ item ++
                      "` must be a string")
            | _ =>
              .error ("the `type` parameter for item `" ++ item ++
                "` must be a string")
        | _ =>
          .error ("the `name` parameter for item `" ++ item ++
            "` must be a string")
    | _ => .error ("item `" ++ item ++ "` is not a mapping")

/-- `_compile_match_items` (`transform.py` lines 177-219). -/
def compileMatchItems (transformers : SubRegistry)
    (modifiers : List (String × Value)) :
    Except String (List (String × (String × SubTransform))) :=
  match dictGetD modifiers "items" .null with
  | .null => .error "the `items` parameter is required"
  | .dict items =>
    let globalSource := dictGetD modifiers "source" .null
    let mods := removeKeyM (removeKeyM modifiers "items") "source"
    compileMatchItemsGo transformers globalSource mods items
  | _ => .error "the `items` parameter must be a mapping"

/-- The closure returned by `get_match` (`transform.py` lines 78-82): look
the raw value up among the compiled items; on a hit, feed the matched item's
source value (from the row's source map) to its sub-transform; on a miss, do
nothing. -/
def matchApply (ci : List (String × (String × SubTransform))) : Transform :=
  fun value sources ctx =>
    match itemLookup ci value with
    | none => .ok []
    | some (src, t) =>
      match sources with
      | .dict m =>
        match dictGet m src with
        | some v => t v ctx
        | none => .error ("KeyError: " ++ src)
      | _ => .error "TypeError: sources is not a mapping"

/-- The `match` factory (`transform.py` lines 74-83); like the Python
function, it ignores the column name. -/
def get_match (transformers : SubRegistry) (_column_name : String)
    (modifiers : List (String × Value)) : Except String Transform :=
  (compileMatchItems transformers modifiers).map matchApply

/-- Stable insertion by decreasing string length: an element passes every
string at least as long as itself (`sorted(key=lambda s: -len(s))`). -/
def insertByLen (x : String) : List String → List String
  | [] => [x]
  | y :: ys => if x.length ≤ y.length then y :: insertByLen x ys else x :: y :: ys

/-- Sort source names by decreasing length, stably (`transform.py` line 99):
longer names come first so that alternation prefers the longest match. -/
def sortByLenDesc (xs : List String) : List String :=
  xs.foldl (fun acc x => insertByLen x acc) []

/-- Quote test for the boundary lookarounds of `SOURCE_PATTERN`
(`transform.py` line 23): a double or single quote; the absent character at
the ends of the text counts as no quote. -/
def isQuoteOpt : Option Char → Bool
  | some c => c == '"' || c == Char.ofNat 39
  | none => false

/-- One match attempt of the compiled alternation
`(?<!"|\x27)(s1|s2|...)(?!"|\x27)` at the current position: the preceding
character must not be a quote, and the first alternative (in sorted order)
that is a literal text segment here and is not followed by a quote wins.
`re.escape` only makes each name literal, which the direct text comparison
already is. -/
def tryMatch (sources : List String) (prev : Option Char) (l : List Char) :
    Option String :=
  if isQuoteOpt prev then none
  else
    sources.find? (fun s =>
      s != "" && s.toList.isPrefixOf l &&
        !(isQuoteOpt ((l.drop s.length).head?)))

/-- The replacement text for one matched source name:
`SOURCES["<name>"]` (`transform.py` line 110). -/
def mkSourceRef (s : String) : List Char :=
  ("SOURCES[\"" ++ s ++ "\"]").toList

/-- The left-to-right scan of `re.sub` over the original text: replace each
non-overlapping match, resume scanning after the matched characters; the
lookbehind always examines the original text.  Recursion is paced by a fuel
counter; every step consumes at least one character (matched names are
nonempty), so any fuel above the text length behaves as unbounded. -/
def subScan (sources : List String) : Nat → Option Char → List Char → List Char
  | 0, _, l => l
  | _ + 1, _, [] => []
  | fuel + 1, prev, c :: cs =>
    match tryMatch sources prev (c :: cs) with
    | some s =>
      mkSourceRef s ++
        subScan sources fuel s.toList.getLast? (List.drop (s.length - 1) cs)
    | none => c :: subScan sources fuel (some c) cs

/-- The source-name substitution step of `get_expression` (`transform.py`
lines 97-112): sort the declared names by decreasing length and rewrite
every bare occurrence into an indexed reference into the runtime source map. -/
def substituteSources (declared : List String) (expression : String) : String :=
  String.mk
    (subScan (sortByLenDesc declared) (expression.length + 1) Option.none
      expression.toList)

/-- Concrete transform used by witnesses: submits nothing. -/
def wTransform : Transform := fun _ _ _ => .ok []

/-- Concrete factory used by witnesses: always succeeds. -/
def wFactory : Factory := fun _ _ => .ok wTransform

/-- Concrete column-transformer registry used by witnesses; it contains the
mandatory `tag` entry and a submission-style `gauge` entry. -/
def wCreg : Registry := [("gauge", wFactory), ("tag", wFactory)]

/-- A minimal valid configuration used by witnesses. -/
def cfgValid : Value := .dict
  [("name", .str "q"), ("query", .str "SELECT 1"),
   ("columns", .list [.dict [("name", .str "a"), ("type", .str "source")]])]

/-- A valid configuration whose extra references a source name that no
column or extra declares. -/
def cfgC4 : Value := .dict
  [("name", .str "q"), ("query", .str "SELECT 1"),
   ("columns", .list [.dict [("name", .str "a"), ("type", .str "source")]]),
   ("extras", .list [.dict [("name", .str "e"), ("type", .str "gauge"),
     ("source", .str "undeclared")]])]

/-- A valid configuration whose `tags` field is present and `None`. -/
def cfgTagsNull : Value := .dict
  [("name", .str "q"), ("query", .str "SELECT 1"),
   ("columns", .list [.dict [("name", .str "a"), ("type", .str "source")]]),
   ("tags", .null)]

/-- A configuration whose `tags` field is a string, as a key list. -/
def mTagsBad : List (String × Value) :=
  [("name", .str "q"), ("query", .str "SELECT 1"),
   ("columns", .list [.dict [("name", .str "a"), ("type", .str "source")]]),
   ("tags", .str "oops")]

/-- Concrete base transform used by witnesses: submits its compiled name
with the received value. -/
def wNamedFactory : SubFactory := fun n _ => .ok (fun v _ => .ok [(n, v)])

/-- Concrete base registry for the `monotonic_gauge` witness. -/
def wMonoReg : SubRegistry :=
  [("gauge", wNamedFactory), ("monotonic_count", wNamedFactory)]

/-- Concrete base registry for the `temporal_percent` witness. -/
def wRateReg : SubRegistry := [("rate", wNamedFactory)]

/-- Concrete base registry for the `match` witness. -/
def wMatchReg : SubRegistry := [("monotonic_count", wNamedFactory)]

/-- Modifiers of the spec section 8 `match` example: one item keyed `OK`
submitting a `monotonic_count` named `ok_count` from source `status`. -/
def wMatchMods : List (String × Value) :=
  [("items", .dict [("OK", .dict
    [("name", .str "ok_count"), ("type", .str "monotonic_count"),
     ("source", .str "status")])])]

/-- The compiled items the `match` witness expects. -/
def wMatchItems : List (String × (String × SubTransform)) :=
  [("OK", ("status", fun v _ => .ok [("ok_count", v)]))]

/-- A concrete `source`-typed column declaring the name `a`. -/
def colSourceA : Value := .dict [("name", .str "a"), ("type", .str "source")]

/-- A configuration (as a key list) declaring the column name `a` twice. -/
def mDup : List (String × Value) :=
  [("name", .str "q"), ("query", .str "SELECT 1"),
   ("columns", .list [colSourceA, colSourceA])]

/-- An extra entry of submission type `gauge` with no `source` field. -/
def mExtraNoSrc : List (String × Value) :=
  [("name", .str "e"), ("type", .str "gauge")]

/-- An extra entry of submission type `gauge` whose `source` names a source
that nothing declares. -/
def mExtraSrc : List (String × Value) :=
  [("name", .str "e"), ("type", .str "gauge"), ("source", .str "undeclared")]

/-- C6: expression source-name substitution is longest-match-first: with
declared sources `cpu` and `cpu_total` (in either declaration order) the
expression `cpu / cpu_total` rewrites to
`SOURCES["cpu"] / SOURCES["cpu_total"]`: each name is replaced by its
indexed source-map reference exactly once and `cpu` is never substituted
inside the occurrence of `cpu_total`. -/
theorem c6_substitution_longest_match_first :
    substituteSources ["cpu", "cpu_total"] "cpu / cpu_total" =
      "SOURCES[\"cpu\"] / SOURCES[\"cpu_total\"]" ∧
    substituteSources ["cpu_total", "cpu"] "cpu / cpu_total" =
      "SOURCES[\"cpu\"] / SOURCES[\"cpu_total\"]" := by
  exact ⟨by decide, by decide⟩

/-- C7: `get_monotonic_gauge` builds the gauge transform under
`<name>.total` and the monotonic-count transform under `<name>.count`, both
from the same modifiers, and the composed transform runs the gauge first and
the monotonic count second on the identical value and context (gathering
both event lists in that order); an error in the gauge stops the count from
running. -/
theorem c7_monotonic_gauge_composition :
    ∀ (transformers : SubRegistry) (name : String)
      (mods : List (String × Value)) (gf mf : SubFactory)
      (g m : SubTransform),
      subRegLookup transformers "gauge" = some gf →
      subRegLookup transformers "monotonic_count" = some mf →
      gf (name ++ ".total") mods = .ok g →
      mf (name ++ ".count") mods = .ok m →
      get_monotonic_gauge transformers name mods =
          .ok (monotonicGaugeCompose g m) ∧
        (∀ v ctx e1 e2, g v ctx = .ok e1 → m v ctx = .ok e2 →
          monotonicGaugeCompose g m v ctx = .ok (e1 ++ e2)) ∧
        (∀ v ctx e, g v ctx = .error e →
          monotonicGaugeCompose g m v ctx = .error e) := by
  intro transformers name mods gf mf g m hg hm hgo hmo
  refine ⟨?_, ?_, ?_⟩
  · unfold get_monotonic_gauge
    rw [hg, hm]
    dsimp only
    rw [hgo, hmo]
  · intro v ctx e1 e2 h1 h2
    unfold monotonicGaugeCompose
    rw [h1, h2]
  · intro v ctx e h1
    unfold monotonicGaugeCompose
    rw [h1]

/-- C7 witness: with a registry whose `gauge` and `monotonic_count`
factories submit their compiled name with the value, the composition built
for column `c` submits `c.total` first and `c.count` second. -/
theorem c7_monotonic_gauge_composition_witness :
    get_monotonic_gauge wMonoReg "c" [] =
        .ok (monotonicGaugeCompose
          (fun v _ => .ok [("c.total", v)]) (fun v _ => .ok [("c.count", v)])) ∧
      monotonicGaugeCompose
          (fun v _ => .ok [("c.total", v)]) (fun v _ => .ok [("c.count", v)])
          (.int 3) [] =
        .ok [("c.total", .int 3), ("c.count", .int 3)] := by
  have h := c7_monotonic_gauge_composition wMonoReg "c" [] wNamedFactory
    wNamedFactory (fun v _ => .ok [("c.total", v)])
    (fun v _ => .ok [("c.count", v)]) rfl rfl rfl rfl
  exact ⟨h.1, h.2.1 (.int 3) [] _ _ rfl rfl⟩

/-- C8: the transform returned by `get_match` applies `matchApply` to the
compiled items; at call time, a raw value matching an item key dispatches
that item's sub-transform on the value looked up in the row's source map
under the item's source name, and a raw value matching no key invokes
nothing and raises nothing. -/
theorem c8_match_dispatch_or_silent_noop :
    (∀ (transformers : SubRegistry) (cn : String)
        (mods : List (String × Value))
        (ci : List (String × (String × SubTransform))),
      compileMatchItems transformers mods = .ok ci →
      get_match transformers cn mods = .ok (matchApply ci)) ∧
    (∀ (ci : List (String × (String × SubTransform))) (value : Value)
        (sm : List (String × Value)) (ctx : Ctx) (src : String)
        (t : SubTransform) (v : Value),
      itemLookup ci value = some (src, t) →
      dictGet sm src = some v →
      matchApply ci value (.dict sm) ctx = t v ctx) ∧
    (∀ (ci : List (String × (String × SubTransform))) (value sources : Value)
        (ctx : Ctx),
      itemLookup ci value = none →
      matchApply ci value sources ctx = .ok []) := by
  refine ⟨?_, ?_, ?_⟩
  · intro transformers cn mods ci h
    unfold get_match
    rw [h]
    rfl
  · intro ci value sm ctx src t v hit hsrc
    unfold matchApply
    rw [hit]
    dsimp only
    rw [hsrc]
  · intro ci value sources ctx hmiss
    unfold matchApply
    rw [hmiss]

/-- C8 witness: the spec section 8 example.  Compiling
`items: {OK: {name: ok_count, type: monotonic_count, source: status}}`
yields the expected items; raw value `OK` with row sources `{status: 3}`
submits the monotonic count with value `3`, and raw value `NOPE` produces no
submission and no error. -/
theorem c8_match_dispatch_or_silent_noop_witness :
    get_match wMatchReg "st" wMatchMods = .ok (matchApply wMatchItems) ∧
      matchApply wMatchItems (.str "OK") (.dict [("status", .int 3)]) [] =
        .ok [("ok_count", .int 3)] ∧
      matchApply wMatchItems (.str "NOPE") (.dict [("status", .int 3)]) [] =
        .ok [] := by
  refine ⟨c8_match_dispatch_or_silent_noop.1 wMatchReg "st" wMatchMods
    wMatchItems rfl, ?_, c8_match_dispatch_or_silent_noop.2.2 wMatchItems
    (.str "NOPE") (.dict [("status", .int 3)]) [] rfl⟩
  exact c8_match_dispatch_or_silent_noop.2.1 wMatchItems (.str "OK")
    [("status", .int 3)] [] "status" (fun v _ => .ok [("ok_count", v)])
    (.int 3) rfl rfl

/-- C5 (amended): `get_temporal_percent` fails at factory-call time when the
`scale` modifier is absent, an unrecognized unit-name string, or neither a
string nor an integer; a recognized unit name resolves through the time-unit
table, and any integer — positive or not — is accepted as-is (positivity is
never checked; a Python bool also passes the integer check).  On acceptance
the factory builds the underlying `rate` transform from the remaining
modifiers and wraps it in the temporal-percent conversion. -/
theorem c5_temporal_percent_scale_validation :
    ∀ (tf : SubRegistry) (cn : String) (mods : List (String × Value)),
      (dictGetD mods "scale" .null = .null →
        get_temporal_percent tf cn mods =
          .error "the `scale` parameter is required") ∧
      (∀ s, dictGetD mods "scale" .null = .str s →
        lookupUnit TIME_UNITS (strToLower s) = none →
        get_temporal_percent tf cn mods =
          .error ("the `scale` parameter must be one of: " ++
            String.intercalate " | "
              (sortStringsAsc (TIME_UNITS.map (fun p => p.1))))) ∧
      (∀ s n, dictGetD mods "scale" .null = .str s →
        lookupUnit TIME_UNITS (strToLower s) = some n →
        get_temporal_percent tf cn mods =
          temporalPercentBuild tf cn (removeKeyM mods "scale") n) ∧
      (∀ n, dictGetD mods "scale" .null = .int n →
        get_temporal_percent tf cn mods =
          temporalPercentBuild tf cn (removeKeyM mods "scale") n) ∧
      (∀ xs, dictGetD mods "scale" .null = .list xs →
        get_temporal_percent tf cn mods =
          .error
            "the `scale` parameter must be an integer representing parts of a second e.g. 1000 for millisecond") ∧
      (∀ (rf : SubFactory) (r : SubTransform) (n : Int),
        subRegLookup tf "rate" = some rf →
        rf cn (removeKeyM mods "scale") = .ok r →
        temporalPercentBuild tf cn (removeKeyM mods "scale") n =
          .ok (fun value ctx =>
            r (total_time_to_temporal_percent value n) ctx)) := by
  intro tf cn mods
  refine ⟨?_, ?_, ?_, ?_, ?_, ?_⟩
  · intro h
    unfold get_temporal_percent
    rw [h]
  · intro s h hu
    unfold get_temporal_percent
    rw [h]
    dsimp only
    rw [hu]
  · intro s n h hu
    unfold get_temporal_percent
    rw [h]
    dsimp only
    rw [hu]
  · intro n h
    unfold get_temporal_percent
    rw [h]
  · intro xs h
    unfold get_temporal_percent
    rw [h]
  · intro rf r n hrf hr
    unfold temporalPercentBuild
    rw [hrf]
    dsimp only
    rw [hr]

/-- C5 counterexample: the claim says a non-positive integer `scale` makes
the factory raise, but `scale: 0` and `scale: -5` are both accepted (the
code only checks `isinstance(scale, int)`). -/
theorem c5_nonpositive_scale_accepted :
    (get_temporal_percent wRateReg "c" [("scale", .int 0)]).isOk = true ∧
      (get_temporal_percent wRateReg "c" [("scale", .int (-5))]).isOk = true := by
  exact ⟨rfl, rfl⟩

/-- C5 witness: the missing-`scale`, unknown-unit and known-unit paths at
concrete inputs, through the main theorem. -/
theorem c5_temporal_percent_scale_validation_witness :
    get_temporal_percent wRateReg "c" [] =
        .error "the `scale` parameter is required" ∧
      get_temporal_percent wRateReg "c" [("scale", .str "fortnight")] =
        .error ("the `scale` parameter must be one of: " ++
          String.intercalate " | "
            (sortStringsAsc (TIME_UNITS.map (fun p => p.1)))) ∧
      get_temporal_percent wRateReg "c" [("scale", .int 0)] =
        temporalPercentBuild wRateReg "c" [] 0 := by
  refine ⟨(c5_temporal_percent_scale_validation wRateReg "c" []).1 rfl,
    (c5_temporal_percent_scale_validation wRateReg "c"
      [("scale", .str "fortnight")]).2.1 "fortnight" rfl rfl, ?_⟩
  exact (c5_temporal_percent_scale_validation wRateReg "c"
    [("scale", .int 0)]).2.2.2.1 0 rfl

/-- A successful `compile` call always leaves the `name` attribute set:
either it was already set, or the final assignments set it to the validated
query name. -/
theorem compileMethod_ok_name_isSome {s : QueryState} {creg ereg : Registry}
    {s' : QueryState} (h : compileMethod s creg ereg = (s', Option.none)) :
    s'.name.isSome = true := by
  unfold compileMethod at h
  match hn : s.name with
  | some n =>
    rw [hn] at h
    cases h
    rw [hn]
    rfl
  | none =>
    rw [hn] at h
    dsimp only at h
    match hq : s.query_data with
    | none =>
      rw [hq] at h
      cases h
    | some qd =>
      rw [hq] at h
      dsimp only at h
      match hc : compileData qd creg ereg with
      | .error e =>
        rw [hc] at h
        cases h
      | .ok p =>
        rw [hc] at h
        cases h
        rfl

/-- C2: once `compile` has succeeded on a `Query`, a second call — with any
registries — returns immediately without raising and leaves every compiled
attribute exactly as the first call left them (the guard checks that `name`
is already populated). -/
theorem c2_compile_idempotent_after_success :
    ∀ (s : QueryState) (creg ereg : Registry) (s' : QueryState),
      compileMethod s creg ereg = (s', Option.none) →
      ∀ (creg2 ereg2 : Registry),
        compileMethod s' creg2 ereg2 = (s', Option.none) := by
  intro s creg ereg s' h creg2 ereg2
  have hname := compileMethod_ok_name_isSome h
  unfold compileMethod
  match hn : s'.name with
  | some n => rfl
  | none =>
    rw [hn] at hname
    cases hname

/-- C2 witness: compiling a concrete valid configuration once and then
recompiling the resulting state with empty registries returns the state
unchanged with no error. -/
theorem c2_compile_idempotent_after_success_witness :
    compileMethod ((compileMethod (mkQuery cfgValid) wCreg []).1) [] [] =
      ((compileMethod (mkQuery cfgValid) wCreg []).1, Option.none) := by
  exact c2_compile_idempotent_after_success (mkQuery cfgValid) wCreg []
    ((compileMethod (mkQuery cfgValid) wCreg []).1) rfl [] []

/-- C3: when `compile` raises on a freshly constructed `Query`, the instance
is left exactly as `__init__` built it: all compiled attributes still
`None` and the raw configuration still retained (the method assigns
attributes only after every check has passed). -/
theorem c3_error_leaves_instance_unchanged :
    ∀ (qd : Value) (creg ereg : Registry) (s' : QueryState) (msg : String),
      compileMethod (mkQuery qd) creg ereg = (s', some msg) →
      s' = mkQuery qd ∧ s'.name = Option.none ∧ s'.query = Option.none ∧
        s'.columns = Option.none ∧ s'.extras = Option.none ∧
        s'.tags = Option.none ∧
        s'.query_data = some (if truthy qd then qd else .dict []) := by
  intro qd creg ereg s' msg h
  unfold compileMethod at h
  match hc : compileData (if truthy qd then qd else .dict []) creg ereg with
  | .error e =>
    simp only [mkQuery] at h
    rw [hc] at h
    cases h
    exact ⟨rfl, rfl, rfl, rfl, rfl, rfl, rfl⟩
  | .ok p =>
    simp only [mkQuery] at h
    rw [hc] at h
    cases h

/-- C3 witness: a configuration with no `name` field raises and leaves the
fresh instance untouched. -/
theorem c3_error_leaves_instance_unchanged_witness :
    (compileMethod (mkQuery (.dict [])) wCreg []).1 = mkQuery (.dict []) := by
  exact (c3_error_leaves_instance_unchanged (.dict []) wCreg []
    (compileMethod (mkQuery (.dict [])) wCreg []).1
    "query field `name` is required" rfl).1

/-- A truthy column mapping whose truthy string name is already in the
Source Table makes the column step raise the duplicate-name error citing
the earlier definer. -/
theorem colStep_dup (qname : String) (creg : Registry)
    (m : List (String × Value)) (i : Nat) (srcs : SourceTable) (nm : String)
    (info : SourceInfo) (ht : truthy (.dict m) = true)
    (hname : dictGetD m "name" .null = .str nm)
    (hnm : truthy (.str nm) = true) (hdup : srcLookup srcs nm = some info) :
    colStep qname creg (.dict m) i srcs =
      .error (dupMsg nm qname info.kind info.index) := by
  unfold colStep
  rw [ht]
  simp only [Bool.true_eq_false, if_false]
  rw [hname]
  dsimp only
  rw [hnm]
  simp only [Bool.true_eq_false, if_false]
  rw [hdup]

/-- An extra mapping whose truthy string name is already in the Source Table
makes the extra step raise the duplicate-name error citing the earlier
definer. -/
theorem extraStep_dup (qname : String) (ereg sreg : Registry)
    (m : List (String × Value)) (i : Nat) (srcs : SourceTable) (nm : String)
    (info : SourceInfo) (hname : dictGetD m "name" .null = .str nm)
    (hnm : truthy (.str nm) = true) (hdup : srcLookup srcs nm = some info) :
    extraStep qname ereg sreg (.dict m) i srcs =
      .error (dupMsg nm qname info.kind info.index) := by
  unfold extraStep
  dsimp only
  rw [hname]
  dsimp only
  rw [hnm]
  simp only [Bool.true_eq_false, if_false]
  rw [hdup]

/-- The column loop distributes over list append, threading the position
counter and the Source Table. -/
theorem compileColumns_append (qname : String) (creg : Registry) :
    ∀ (xs ys : List Value) (i : Nat) (srcs : SourceTable),
      compileColumns qname creg (xs ++ ys) i srcs =
        match compileColumns qname creg xs i srcs with
        | .error e => .error e
        | .ok (ds, s2) =>
          match compileColumns qname creg ys (i + xs.length) s2 with
          | .error e => .error e
          | .ok (ds2, s3) => .ok (ds ++ ds2, s3) := by
  intro xs
  induction xs with
  | nil =>
    intro ys i srcs
    simp only [List.nil_append, compileColumns, List.length_nil, Nat.add_zero]
    cases compileColumns qname creg ys i srcs with
    | error e => rfl
    | ok p => rfl
  | cons c rest ih =>
    intro ys i srcs
    simp only [List.cons_append, compileColumns]
    cases colStep qname creg c i srcs with
    | error e => rfl
    | ok p =>
      obtain ⟨e0, s2⟩ := p
      dsimp only
      simp only [List.append_eq]
      rw [ih ys (i + 1) s2]
      have harith : i + (c :: rest).length = i + 1 + rest.length := by
        simp [List.length_cons]
        omega
      rw [harith]
      cases compileColumns qname creg rest (i + 1) s2 with
      | error e => rfl
      | ok p2 =>
        obtain ⟨ds, s3⟩ := p2
        dsimp only
        cases compileColumns qname creg ys (i + 1 + rest.length) s3 with
        | error e => rfl
        | ok p3 =>
          obtain ⟨ds2, s4⟩ := p3
          dsimp only
          rw [List.cons_append]

/-- C1: whenever compilation reaches an entry — column or extra — whose
truthy string name is already in the Source Table, it raises the
duplicate-name error, and that error's text contains the duplicate name,
the earlier definer's kind and the earlier definer's 1-based index; on a
full configuration, a duplicate column raised after a successfully compiled
prefix surfaces through `compileData` as exactly this error. -/
theorem c1_duplicate_name_cites_first_definer :
    (∀ (qname : String) (creg : Registry) (m : List (String × Value))
        (i : Nat) (srcs : SourceTable) (nm : String) (info : SourceInfo),
      truthy (.dict m) = true →
      dictGetD m "name" .null = .str nm →
      truthy (.str nm) = true →
      srcLookup srcs nm = some info →
      colStep qname creg (.dict m) i srcs =
        .error (dupMsg nm qname info.kind info.index)) ∧
    (∀ (qname : String) (ereg sreg : Registry) (m : List (String × Value))
        (i : Nat) (srcs : SourceTable) (nm : String) (info : SourceInfo),
      dictGetD m "name" .null = .str nm →
      truthy (.str nm) = true →
      srcLookup srcs nm = some info →
      extraStep qname ereg sreg (.dict m) i srcs =
        .error (dupMsg nm qname info.kind info.index)) ∧
    (∀ (nm q k : String) (idx : Nat),
      (∃ a b, dupMsg nm q k idx = a ++ (nm ++ b)) ∧
      (∃ c d, dupMsg nm q k idx = c ++ (k ++ d)) ∧
      (∃ e f, dupMsg nm q k idx = e ++ (toString idx ++ f))) ∧
    (∀ (creg ereg : Registry) (m : List (String × Value)) (qname query : String)
        (colsPre : List Value) (dm : List (String × Value)) (rest : List Value)
        (ds : List ColumnEntry) (srcs : SourceTable) (tv : Value) (nm : String)
        (info : SourceInfo),
      checkName m = .ok qname →
      checkQuery m qname = .ok query →
      dictGetD m "columns" .null = .list (colsPre ++ .dict dm :: rest) →
      checkTags m qname = .ok tv →
      compileColumns qname creg colsPre 1 [] = .ok (ds, srcs) →
      truthy (.dict dm) = true →
      dictGetD dm "name" .null = .str nm →
      truthy (.str nm) = true →
      srcLookup srcs nm = some info →
      compileData (.dict m) creg ereg =
        .error (dupMsg nm qname info.kind info.index)) := by
  refine ⟨?_, ?_, ?_, ?_⟩
  · intro qname creg m i srcs nm info ht h1 h2 h3
    exact colStep_dup qname creg m i srcs nm info ht h1 h2 h3
  · intro qname ereg sreg m i srcs nm info h1 h2 h3
    exact extraStep_dup qname ereg sreg m i srcs nm info h1 h2 h3
  · intro nm q k idx
    refine ⟨⟨"the name ",
        " of " ++ q ++ " was already defined in " ++ k ++ " #" ++ toString idx,
        ?_⟩,
      ⟨"the name " ++ nm ++ " of " ++ q ++ " was already defined in ",
        " #" ++ toString idx, ?_⟩,
      ⟨"the name " ++ nm ++ " of " ++ q ++ " was already defined in " ++ k ++
        " #", "", ?_⟩⟩
    · simp [dupMsg, String.append_assoc]
    · simp [dupMsg, String.append_assoc]
    · simp [dupMsg, String.append_assoc]
  · intro creg ereg m qname query colsPre dm rest ds srcs tv nm info
      hname hquery hcols htags hpre ht hdn hdt hdup
    have hne : truthy (Value.list (colsPre ++ Value.dict dm :: rest)) = true := by
      cases colsPre <;> rfl
    have hcc : checkColumns m qname = .ok (colsPre ++ Value.dict dm :: rest) := by
      unfold checkColumns
      dsimp only
      rw [hcols, hne]
      simp
    unfold compileData
    dsimp only
    rw [hname]
    dsimp only
    rw [hquery]
    dsimp only
    rw [hcc]
    dsimp only
    rw [htags]
    dsimp only
    rw [compileColumns_append qname creg colsPre (Value.dict dm :: rest) 1 []]
    rw [hpre]
    dsimp only
    simp only [compileColumns]
    rw [colStep_dup qname creg dm (1 + colsPre.length) srcs nm info ht hdn hdt hdup]

/-- C1 witness: the duplicate column in `mDup` (name `a` redefined at column
2 after column 1) makes full compilation fail with the message citing
`column #1`, and the step-level facts at concrete inputs agree. -/
theorem c1_duplicate_name_cites_first_definer_witness :
    colStep "q" [] (.dict [("name", .str "x")]) 2 [("x", ⟨"column", 1⟩)] =
        .error (dupMsg "x" "q" "column" 1) ∧
      extraStep "q" [] [] (.dict [("name", .str "y")]) 3
          [("y", ⟨"extra", 2⟩)] =
        .error (dupMsg "y" "q" "extra" 2) ∧
      compileData (.dict mDup) wCreg [] = .error (dupMsg "a" "q" "column" 1) := by
  refine ⟨c1_duplicate_name_cites_first_definer.1 "q" [] [("name", .str "x")]
      2 [("x", ⟨"column", 1⟩)] "x" ⟨"column", 1⟩ rfl rfl rfl rfl,
    c1_duplicate_name_cites_first_definer.2.1 "q" [] [] [("name", .str "y")]
      3 [("y", ⟨"extra", 2⟩)] "y" ⟨"extra", 2⟩ rfl rfl rfl, ?_⟩
  exact c1_duplicate_name_cites_first_definer.2.2.2 wCreg [] mDup "q"
    "SELECT 1" [colSourceA] [("name", .str "a"), ("type", .str "source")] []
    [(some "a", some (Option.none, Option.none))] [("a", ⟨"column", 1⟩)]
    (.list []) "a" ⟨"column", 1⟩ rfl rfl rfl rfl rfl rfl rfl rfl rfl

/-- A falsy column entry is accepted as a placeholder: the step yields the
`(None, None)` binding and leaves the Source Table untouched. -/
theorem colStep_falsy (qname : String) (creg : Registry) (col : Value)
    (i : Nat) (srcs : SourceTable) (h : truthy col = false) :
    colStep qname creg col i srcs = .ok ((Option.none, Option.none), srcs) := by
  unfold colStep
  rw [h]
  rfl

/-- A successful column step either leaves the Source Table unchanged or
appends exactly one registration carrying kind `column` and the step's own
1-based position. -/
theorem colStep_sources {qname : String} {creg : Registry} {col : Value}
    {i : Nat} {srcs : SourceTable} {e : ColumnEntry} {s2 : SourceTable}
    (h : colStep qname creg col i srcs = .ok (e, s2)) :
    s2 = srcs ∨ ∃ n, s2 = srcs ++ [(n, SourceInfo.mk "column" i)] := by
  unfold colStep at h
  dsimp only at h
  repeat' split at h
  all_goals cases h
  all_goals first
    | exact Or.inl rfl
    | exact Or.inr ⟨_, rfl⟩

/-- Lookup across a one-entry extension of the Source Table: a hit is either
already present or the new entry's info. -/
theorem srcLookup_append_single {srcs : SourceTable} {n nm : String}
    {i0 inf : SourceInfo}
    (h : srcLookup (srcs ++ [(n, i0)]) nm = some inf) :
    srcLookup srcs nm = some inf ∨ inf = i0 := by
  unfold srcLookup at h ⊢
  rw [List.find?_append] at h
  cases hfind : srcs.find? (fun p => p.1 == nm) with
  | some q =>
    rw [hfind] at h
    simp at h
    simp [h]
  | none =>
    rw [hfind] at h
    simp only [Option.or, Option.map] at h
    by_cases hn : (n == nm) = true
    · simp [List.find?, hn] at h
      exact Or.inr h.symm
    · simp [List.find?, hn] at h

/-- Every registration a run of the column loop adds on top of the incoming
Source Table stems from a truthy entry of the processed list and carries
kind `column` with that entry's 1-based position. -/
theorem compileColumns_sources (qname : String) (creg : Registry) :
    ∀ (cols : List Value) (i : Nat) (srcs : SourceTable)
      (ds : List ColumnEntry) (s' : SourceTable),
      compileColumns qname creg cols i srcs = .ok (ds, s') →
      ∀ (nm : String) (inf : SourceInfo), srcLookup s' nm = some inf →
        srcLookup srcs nm = some inf ∨
          ∃ k col, cols[k]? = some col ∧ truthy col = true ∧
            inf = SourceInfo.mk "column" (i + k) := by
  intro cols
  induction cols with
  | nil =>
    intro i srcs ds s' h nm inf hl
    unfold compileColumns at h
    cases h
    exact Or.inl hl
  | cons c rest ih =>
    intro i srcs ds s' h nm inf hl
    unfold compileColumns at h
    cases hstep : colStep qname creg c i srcs with
    | error e => rw [hstep] at h; cases h
    | ok p =>
      obtain ⟨e0, s2⟩ := p
      rw [hstep] at h
      dsimp only at h
      cases hrec : compileColumns qname creg rest (i + 1) s2 with
      | error e => rw [hrec] at h; cases h
      | ok p2 =>
        obtain ⟨ds', s3⟩ := p2
        rw [hrec] at h
        cases h
        have hmain := ih (i + 1) s2 ds' s' hrec nm inf hl
        cases hmain with
        | inr hnew =>
          obtain ⟨k, col, hk, hkt, hinf⟩ := hnew
          refine Or.inr ⟨k + 1, col, ?_, hkt, ?_⟩
          · simpa using hk
          · rw [hinf]
            have : i + 1 + k = i + (k + 1) := by omega
            rw [this]
        | inl hs2 =>
          cases colStep_sources hstep with
          | inl heq =>
            rw [heq] at hs2
            exact Or.inl hs2
          | inr hnew =>
            obtain ⟨n, hn⟩ := hnew
            rw [hn] at hs2
            cases srcLookup_append_single hs2 with
            | inl hold => exact Or.inl hold
            | inr hinf =>
              have hct : truthy c = true := by
                by_contra hcf
                have hcf2 : truthy c = false := by
                  revert hcf
                  cases truthy c <;> simp
                have hfe := colStep_falsy qname creg c i srcs hcf2
                rw [hstep] at hfe
                simp only [Except.ok.injEq, Prod.mk.injEq] at hfe
                have hseq : s2 = srcs := hfe.2
                rw [hn] at hseq
                simp at hseq
              refine Or.inr ⟨0, c, by simp, hct, ?_⟩
              rw [hinf]
              simp

/-- A falsy entry of the processed column list always produces the
`(None, None)` binding at its own position in a successful run of the
column loop. -/
theorem compileColumns_entries (qname : String) (creg : Registry) :
    ∀ (cols : List Value) (i : Nat) (srcs : SourceTable)
      (ds : List ColumnEntry) (s' : SourceTable),
      compileColumns qname creg cols i srcs = .ok (ds, s') →
      ∀ (j : Nat) (col : Value), cols[j]? = some col → truthy col = false →
        ds[j]? = some (Option.none, Option.none) := by
  intro cols
  induction cols with
  | nil =>
    intro i srcs ds s' h j col hj
    simp at hj
  | cons c rest ih =>
    intro i srcs ds s' h j col hj hf
    unfold compileColumns at h
    cases hstep : colStep qname creg c i srcs with
    | error e => rw [hstep] at h; cases h
    | ok p =>
      obtain ⟨e0, s2⟩ := p
      rw [hstep] at h
      dsimp only at h
      cases hrec : compileColumns qname creg rest (i + 1) s2 with
      | error e => rw [hrec] at h; cases h
      | ok p2 =>
        obtain ⟨ds', s3⟩ := p2
        rw [hrec] at h
        cases h
        cases j with
        | zero =>
          simp at hj
          subst hj
          have hfe := colStep_falsy qname creg c i srcs hf
          rw [hstep] at hfe
          simp only [Except.ok.injEq, Prod.mk.injEq] at hfe
          simp [hfe.1]
        | succ j2 =>
          simp only [List.getElem?_cons_succ] at hj
          simpa using ih (i + 1) s2 ds' _ hrec j2 col hj hf

/-- C9: a falsy column entry compiles successfully to the `(None, None)`
placeholder: the step leaves the Source Table unchanged, any successful run
of the column loop stores `(None, None)` at the falsy entry's position, and
starting from an empty table no Source Table entry ever records kind
`column` with the falsy entry's 1-based index — so that position can never
be cited as the earlier definer in a duplicate error. -/
theorem c9_falsy_column_placeholder :
    (∀ (qname : String) (creg : Registry) (col : Value) (i : Nat)
        (srcs : SourceTable),
      truthy col = false →
      colStep qname creg col i srcs = .ok ((Option.none, Option.none), srcs)) ∧
    (∀ (qname : String) (creg : Registry) (cols : List Value) (i : Nat)
        (srcs : SourceTable) (ds : List ColumnEntry) (s' : SourceTable)
        (j : Nat) (col : Value),
      compileColumns qname creg cols i srcs = .ok (ds, s') →
      cols[j]? = some col → truthy col = false →
      ds[j]? = some (Option.none, Option.none)) ∧
    (∀ (qname : String) (creg : Registry) (cols : List Value)
        (ds : List ColumnEntry) (s' : SourceTable) (j : Nat) (col : Value)
        (nm : String) (inf : SourceInfo),
      compileColumns qname creg cols 1 [] = .ok (ds, s') →
      cols[j]? = some col → truthy col = false →
      srcLookup s' nm = some inf →
      ¬(inf.kind = "column" ∧ inf.index = j + 1)) := by
  refine ⟨colStep_falsy, ?_, ?_⟩
  · intro qname creg cols i srcs ds s' j col h hj hf
    exact compileColumns_entries qname creg cols i srcs ds s' h j col hj hf
  · intro qname creg cols ds s' j col nm inf h hj hf hl hand
    obtain ⟨hk, hi⟩ := hand
    cases compileColumns_sources qname creg cols 1 [] ds s' h nm inf hl with
    | inl h0 => simp [srcLookup] at h0
    | inr hex =>
      obtain ⟨k, col', hk', ht', hinf⟩ := hex
      subst hinf
      simp at hi
      have hkj : k = j := by omega
      subst hkj
      have hcc := hj.symm.trans hk'
      simp at hcc
      rw [← hcc] at ht'
      rw [hf] at ht'
      cases ht'

/-- C9 witness: a `None` column entry steps to `(None, None)` without
touching the Source Table; in the concrete list `[None, {name: a, type:
source}]` the compiled entry at position 1 is `(None, None)` and the only
registration is `a` at column 2, never column 1. -/
theorem c9_falsy_column_placeholder_witness :
    colStep "q" [] .null 3 [("z", ⟨"column", 1⟩)] =
        .ok ((Option.none, Option.none), [("z", ⟨"column", 1⟩)]) ∧
      ([(Option.none, Option.none),
        (some "a", some (Option.none, Option.none))] :
          List ColumnEntry)[0]? = some (Option.none, Option.none) ∧
      ¬((SourceInfo.mk "column" 2).kind = "column" ∧
        (SourceInfo.mk "column" 2).index = 0 + 1) := by
  refine ⟨c9_falsy_column_placeholder.1 "q" [] .null 3 [("z", ⟨"column", 1⟩)]
    rfl, ?_, ?_⟩
  · exact c9_falsy_column_placeholder.2.1 "q" wCreg [.null, colSourceA] 1 []
      [(Option.none, Option.none), (some "a", some (Option.none, Option.none))]
      [("a", ⟨"column", 2⟩)] 0 .null rfl rfl rfl
  · exact c9_falsy_column_placeholder.2.2 "q" wCreg [.null, colSourceA]
      [(Option.none, Option.none), (some "a", some (Option.none, Option.none))]
      [("a", ⟨"column", 2⟩)] 0 .null "a" ⟨"column", 2⟩ rfl rfl rfl rfl

/-- C4 counterexample: the claim calls an extra whose `source` names an
undeclared source a compile-time error, but compiling a configuration whose
only declared source is column `a` while the `gauge`-typed extra names
`undeclared` succeeds with no error raised. -/
theorem c4_undeclared_extra_source_accepted :
    (compileMethod (mkQuery cfgC4) wCreg []).2 = Option.none ∧
      srcLookup [("a", ⟨"column", 1⟩)] "undeclared" = none := by
  exact ⟨rfl, rfl⟩

/-- C4 (amended): for an extra whose type resolves to a submission-style
(column) transformer, compile fails unless a truthy `source` field is
present; the `source` value is never checked against the Source Table, so
the step succeeds for any truthy source value — declared or not — whenever
the factory succeeds, wrapping the transform in the source-map adapter. -/
theorem c4_extra_source_required_but_unchecked :
    (∀ (qname : String) (ereg sreg : Registry) (m : List (String × Value))
        (i : Nat) (srcs : SourceTable) (ename t : String),
      dictGetD m "name" .null = .str ename →
      truthy (.str ename) = true →
      srcLookup srcs ename = none →
      dictGetD m "type" .null = .str t →
      truthy (.str t) = true →
      hasReg sreg t = true →
      truthy (dictGetD m "source" .null) = false →
      extraStep qname ereg sreg (.dict m) i srcs =
        .error (extraSourceRequiredMsg ename qname)) ∧
    (∀ (qname : String) (ereg sreg : Registry) (m : List (String × Value))
        (i : Nat) (srcs : SourceTable) (ename t : String) (sv : Value)
        (f : Factory) (t0 : Transform),
      dictGetD m "name" .null = .str ename →
      truthy (.str ename) = true →
      srcLookup srcs ename = none →
      dictGetD m "type" .null = .str t →
      truthy (.str t) = true →
      hasReg sreg t = true →
      dictGetD m "source" .null = sv →
      truthy sv = true →
      (regLookup ereg t).orElse (fun _ => regLookup sreg t) = some f →
      f ename (m.filter (fun p =>
        p.1 != "name" && p.1 != "type" && p.1 != "source")) = .ok t0 →
      extraStep qname ereg sreg (.dict m) i srcs =
        .ok ((ename, create_extra_transformer t0 sv),
          srcs ++ [(ename, ⟨"extra", i⟩)])) := by
  constructor
  · intro qname ereg sreg m i srcs ename t hname hnm hno htype htt hsub hsrc
    unfold extraStep
    dsimp only
    rw [hname]
    dsimp only
    rw [hnm]
    simp only [Bool.true_eq_false, if_false]
    rw [hno]
    dsimp only
    rw [htype]
    dsimp only
    rw [htt]
    simp only [Bool.true_eq_false, if_false]
    rw [hsub]
    simp only [Bool.or_true, if_true]
    simp [hsub, hsrc]
  · intro qname ereg sreg m i srcs ename t sv f t0 hname hnm hno htype htt
      hsub hsv htv hf hfac
    unfold extraStep
    dsimp only
    rw [hname]
    dsimp only
    rw [hnm]
    simp only [Bool.true_eq_false, if_false]
    rw [hno]
    dsimp only
    rw [htype]
    dsimp only
    rw [htt]
    simp only [Bool.true_eq_false, if_false]
    rw [hsub]
    simp only [Bool.or_true, if_true]
    rw [hsv, htv]
    simp only [Bool.true_eq_false, if_false]
    rw [hf]
    dsimp only
    rw [hfac]
    rw [hsub]
    simp

/-- C4 witness: with submission registry `{gauge}`, the extra lacking a
`source` fails with the required-source message, while the same extra with
`source: undeclared` — a name nothing declares — compiles to the wrapped
transform. -/
theorem c4_extra_source_required_but_unchecked_witness :
    extraStep "q" [] [("gauge", wFactory)] (.dict mExtraNoSrc) 1 [] =
        .error (extraSourceRequiredMsg "e" "q") ∧
      extraStep "q" [] [("gauge", wFactory)] (.dict mExtraSrc) 1 [] =
        .ok (("e", create_extra_transformer wTransform (.str "undeclared")),
          [("e", ⟨"extra", 1⟩)]) := by
  constructor
  · exact c4_extra_source_required_but_unchecked.1 "q" [] [("gauge", wFactory)]
      mExtraNoSrc 1 [] "e" "gauge" rfl rfl rfl rfl rfl rfl rfl
  · exact c4_extra_source_required_but_unchecked.2 "q" [] [("gauge", wFactory)]
      mExtraSrc 1 [] "e" "gauge" (.str "undeclared") wFactory wTransform
      rfl rfl rfl rfl rfl rfl rfl rfl rfl rfl

/-- A `tags` field present with value `None` passes validation unchanged. -/
theorem checkTags_null (m : List (String × Value)) (qname : String)
    (h : dictGet m "tags" = some .null) : checkTags m qname = .ok .null := by
  have hd : dictGetD m "tags" (.list []) = .null := by
    unfold dictGetD
    rw [h]
    rfl
  unfold checkTags
  rw [hd]

/-- A `tags` field present with a non-`None`, non-list value fails
validation with the must-be-a-list message. -/
theorem checkTags_nonlist (m : List (String × Value)) (qname : String)
    (v : Value) (h : dictGet m "tags" = some v) (hne : v ≠ .null)
    (hl : v.isList = false) :
    checkTags m qname =
      .error ("field `tags` for " ++ qname ++ " must be a list") := by
  have hd : dictGetD m "tags" (.list []) = v := by
    unfold dictGetD
    rw [h]
    rfl
  unfold checkTags
  rw [hd]
  cases v <;> first
    | rfl
    | exact absurd rfl hne
    | simp [Value.isList] at hl

/-- C10: a `tags` field explicitly present as `None` is accepted — the
compiled `tags` attribute is `None`, not the empty list — while any other
non-list `tags` value fails compilation with the must-be-a-list error. -/
theorem c10_tags_none_accepted_nonlist_rejected :
    (∀ (m : List (String × Value)) (creg ereg : Registry) (p : CompiledParts),
      dictGet m "tags" = some .null →
      compileData (.dict m) creg ereg = .ok p →
      p.tags = .null) ∧
    (∀ (m : List (String × Value)) (creg ereg : Registry)
        (qname query : String) (cols : List Value) (v : Value),
      checkName m = .ok qname →
      checkQuery m qname = .ok query →
      checkColumns m qname = .ok cols →
      dictGet m "tags" = some v →
      v ≠ .null →
      v.isList = false →
      compileData (.dict m) creg ereg =
        .error ("field `tags` for " ++ qname ++ " must be a list")) ∧
    ((compileMethod (mkQuery cfgTagsNull) wCreg []).2 = Option.none ∧
      (compileMethod (mkQuery cfgTagsNull) wCreg []).1.tags = some .null) := by
  refine ⟨?_, ?_, rfl, rfl⟩
  · intro m creg ereg p htags h
    unfold compileData at h
    dsimp only at h
    cases hn : checkName m with
    | error e => rw [hn] at h; cases h
    | ok qname =>
      rw [hn] at h
      dsimp only at h
      cases hq : checkQuery m qname with
      | error e => rw [hq] at h; cases h
      | ok query =>
        rw [hq] at h
        dsimp only at h
        cases hc : checkColumns m qname with
        | error e => rw [hc] at h; cases h
        | ok cols =>
          rw [hc] at h
          dsimp only at h
          rw [checkTags_null m qname htags] at h
          dsimp only at h
          cases hcc : compileColumns qname creg cols 1 [] with
          | error e => rw [hcc] at h; cases h
          | ok p2 =>
            obtain ⟨colData, srcs⟩ := p2
            rw [hcc] at h
            dsimp only at h
            split at h
            · cases h
            · cases he : checkExtras m qname with
              | error e => rw [he] at h; cases h
              | ok extrasList =>
                rw [he] at h
                dsimp only at h
                cases hex : compileExtras qname ereg (regRemove creg "tag")
                    extrasList 1 srcs with
                | error e => rw [hex] at h; cases h
                | ok p3 =>
                  obtain ⟨extraData, s2⟩ := p3
                  rw [hex] at h
                  cases h
                  rfl
  · intro m creg ereg qname query cols v hn hq hc htags hne hl
    unfold compileData
    dsimp only
    rw [hn]
    dsimp only
    rw [hq]
    dsimp only
    rw [hc]
    dsimp only
    rw [checkTags_nonlist m qname v htags hne hl]

/-- C10 witness: the configuration with `tags: "oops"` fails with the
must-be-a-list message for query `q`. -/
theorem c10_tags_none_accepted_nonlist_rejected_witness :
    compileData (.dict mTagsBad) wCreg [] =
      .error ("field `tags` for " ++ "q" ++ " must be a list") := by
  exact c10_tags_none_accepted_nonlist_rejected.2.1 mTagsBad wCreg [] "q"
    "SELECT 1" [colSourceA] (.str "oops") rfl rfl rfl rfl nofun rfl
